import Mathlib

/-!
Verification development for the Zepto analytics dashboard (src/app1.py).

The dashboard's computational core is embedded shallowly:
* the Loader/Normalizer: derived columns SLA_Breach, SLA_Status, Age_Group,
  Total_Spend (lines 36-52 of app1.py); the date-extraction columns Hour and
  Day_of_Week come from the external datetime parser and are not referenced
  by any filter or aggregate below, so they are left outside the embedding;
* the Filter/Aggregator: the sidebar default option lists (create_filter,
  lines 70-85), the four-way conjunctive filter (lines 100-105), the KPI
  summary over a non-empty filtered subset (lines 113-128), and the
  free-form aggregation of the General Analysis tab (lines 271-303).

Decimal quantities (price, delivery time) are embedded as rationals; ages
and quantities as integers, matching the declared column types.
-/

namespace Zepto

/-- Raw order record: one row of the source table before derivation.
Identifiers are opaque strings not used in computation; the timestamp
column feeds only the date-extraction fields, which no claim touches. -/
structure RawRow where
  customerId : String
  productId : String
  city : String
  productCategory : String
  gender : String
  age : Int
  price : ℚ
  quantity : Int
  deliveryTimeMins : ℚ
  loyaltyPoints : Int
deriving DecidableEq, Repr

/-- SLA promise constant: 10 minutes (line 38, "10 minutes is the strict promise"). -/
def slaThreshold : ℚ := 10

/-- SLA_Breach column (line 38): `df['Delivery_Time_mins'] > 10`, strict comparison. -/
def computeSlaBreach (dt : ℚ) : Bool := decide (slaThreshold < dt)

/-- SLA_Status column (line 39): string mirror of SLA_Breach. -/
def slaStatusOf (b : Bool) : String :=
  if b then "Breached (>10m)" else "On Time (<=10m)"

/-- Age_Group column (lines 42-44): `pd.cut(age, bins=[18,25,35,45,55,65],
labels=[...], right=True)`. With right=True and the default include_lowest,
the intervals are (18,25], (25,35], (35,45], (45,55], (55,65]; a value in
no interval (age ≤ 18 or age > 65) becomes null (none). -/
def ageGroup (a : Int) : Option String :=
  if 18 < a ∧ a ≤ 25 then some "18-25"
  else if 25 < a ∧ a ≤ 35 then some "26-35"
  else if 35 < a ∧ a ≤ 45 then some "36-45"
  else if 45 < a ∧ a ≤ 55 then some "46-55"
  else if 55 < a ∧ a ≤ 65 then some "56-65"
  else none

/-- Canonical row: the raw fields plus the derived columns. -/
structure Row where
  raw : RawRow
  slaBreach : Bool
  slaStatus : String
  ageGroup : Option String
  totalSpend : ℚ
deriving DecidableEq, Repr

/-- Loader/Normalizer derivation step (lines 36-52): computes every derived
column from the raw record. Total_Spend is `Price * Quantity` (line 52). -/
def derive (r : RawRow) : Row :=
  { raw := r
    slaBreach := computeSlaBreach r.deliveryTimeMins
    slaStatus := slaStatusOf (computeSlaBreach r.deliveryTimeMins)
    ageGroup := ageGroup r.age
    totalSpend := r.price * (r.quantity : ℚ) }

/-- Allowed-value sets for the four sidebar filters (lines 88-97). -/
structure FilterSelections where
  cities : List String
  categories : List String
  ageGroups : List String
  genders : List String
deriving DecidableEq, Repr

/-- Row predicate of the filter (lines 100-105): conjunction of the four
`isin` membership tests. A null Age_Group is never `isin` a list of labels,
so the match on none yields false, exactly as pandas `isin` evaluates NaN
against a list of strings. -/
def rowMatches (s : FilterSelections) (r : Row) : Bool :=
  decide (r.raw.city ∈ s.cities) &&
  decide (r.raw.productCategory ∈ s.categories) &&
  (match r.ageGroup with
    | some g => decide (g ∈ s.ageGroups)
    | none => false) &&
  decide (r.raw.gender ∈ s.genders)

/-- Filter application (lines 100-105): keep the rows matching all four tests. -/
def applyFilters (s : FilterSelections) (t : List Row) : List Row :=
  t.filter (rowMatches s)

/-- Option list of a non-null column in create_filter (line 72):
`sorted(df[col].dropna().unique())`. dropna is the identity on a column
without nulls; unique is dedup; sorting does not change membership, which
is all the filter consults, so the sort is omitted from the embedding. -/
def uniqueValues (t : List Row) (f : Row → String) : List String :=
  (t.map f).dedup

/-- Option list of the nullable Age_Group column in create_filter (line 72):
dropna discards the nulls before unique. -/
def uniqueOptValues (t : List Row) (f : Row → Option String) : List String :=
  (t.filterMap f).dedup

/-- Default filter state (create_filter with "Select All" checked, lines
75-78): every attribute's allowed set is the list of its observed non-null
values in the canonical table. -/
def defaultSelections (t : List Row) : FilterSelections :=
  { cities := uniqueValues t (fun r => r.raw.city)
    categories := uniqueValues t (fun r => r.raw.productCategory)
    ageGroups := uniqueOptValues t (fun r => r.ageGroup)
    genders := uniqueValues t (fun r => r.raw.gender) }

/-- KPI values of the dashboard's metric row (lines 117-120). -/
structure Summary where
  totalRevenue : ℚ
  breachRate : ℚ
  avgDeliveryTime : ℚ
  avgBasketSize : ℚ
deriving DecidableEq, Repr

/-- Boolean as a rational, as pandas treats SLA_Breach inside mean. -/
def boolToRat (b : Bool) : ℚ := if b then 1 else 0

/-- KPI row (lines 113-128): on a non-empty filtered subset compute
total revenue (sum of Total_Spend), SLA breach rate (mean of SLA_Breach
times 100), average delivery time, and average basket size (mean of
Quantity); on an empty subset the branch at line 126 shows a "no data"
warning and stops instead, which the embedding renders as none. -/
def summarize (t : List Row) : Option Summary :=
  if t.isEmpty then none
  else some
    { totalRevenue := (t.map (fun r => r.totalSpend)).sum
      breachRate := ((t.map (fun r => boolToRat r.slaBreach)).sum / (t.length : ℚ)) * 100
      avgDeliveryTime := ((t.map (fun r => r.raw.deliveryTimeMins)).sum / (t.length : ℚ))
      avgBasketSize := ((t.map (fun r => (r.raw.quantity : ℚ))).sum / (t.length : ℚ)) }

/-- Aggregation methods offered by the General Analysis tab (lines 262-268). -/
inductive AggFunc
  | sum
  | mean
  | count
deriving DecidableEq, Repr

/-- Value column of one group as seen by the aggregation call at lines
275-277, by dtype: numeric, plain object strings (City, Gender, ...), or
the categorical Age_Group column. -/
inductive ValueColumn
  | numeric (vals : List ℚ)
  | objectStr (vals : List String)
  | categorical (vals : List String)
deriving DecidableEq, Repr

/-- Number of values in the column. -/
def ValueColumn.size : ValueColumn → Nat
  | .numeric vs => vs.length
  | .objectStr vs => vs.length
  | .categorical vs => vs.length

/-- Semantics of the pandas call `groupby(...)[y_col].agg(agg_func)` at
lines 275-277, for one group's value column: count counts values of any
dtype; sum adds numeric values but concatenates object-dtype strings (the
documented pandas reduction by the + operator) and raises a TypeError on
the categorical dtype; mean divides a numeric sum by the count and raises
a TypeError on both non-numeric dtypes. Raised errors are the Except
error branch. -/
def aggSeries : AggFunc → ValueColumn → Except String (ℚ ⊕ String)
  | .count, c => .ok (.inl (c.size : ℚ))
  | .sum, .numeric vs => .ok (.inl vs.sum)
  | .sum, .objectStr vs => .ok (.inr (String.join vs))
  | .sum, .categorical _ => .error "category dtype does not support aggregation sum"
  | .mean, .numeric vs => .ok (.inl (vs.sum / (vs.length : ℚ)))
  | .mean, .objectStr _ => .error "Could not convert string to numeric"
  | .mean, .categorical _ => .error "category dtype does not support aggregation mean"

/-- General Analysis rendering (lines 271-303): the aggregation and plot
sit inside a try block; an exception reaches the except branch at line 302
and is shown with st.error in this tab only, without stopping the app. -/
def renderGeneralAnalysis (f : AggFunc) (c : ValueColumn) : String :=
  match aggSeries f c with
  | .ok _ => "chart"
  | .error e => "Could not plot chart. Error: " ++ e

/-- Views computed from one filtered subset: the KPI row (section 4) and
the General Analysis tab (tab 4). Each view is computed independently; the
try/except of tab 4 keeps its failure local, so the KPI component never
depends on the aggregation request. -/
def dashboardViews (t : List Row) (f : AggFunc) (c : ValueColumn) :
    Option Summary × String :=
  (summarize t, renderGeneralAnalysis f c)

/-- Sample raw row from the spec's worked example: City=Mumbai, Price=100,
Quantity=2, DeliveryTime=12 (age chosen inside a bin). -/
def rawMumbai : RawRow :=
  { customerId := "C001", productId := "P001", city := "Mumbai"
    productCategory := "Snacks", gender := "F", age := 30
    price := 100, quantity := 2, deliveryTimeMins := 12, loyaltyPoints := 10 }

/-- Sample raw row from the spec's worked example: City=Delhi, Price=50,
Quantity=1, DeliveryTime=8. -/
def rawDelhi : RawRow :=
  { customerId := "C002", productId := "P002", city := "Delhi"
    productCategory := "Dairy", gender := "M", age := 60
    price := 50, quantity := 1, deliveryTimeMins := 8, loyaltyPoints := 5 }

/-- Sample raw row whose age (17) falls outside every bin, so its derived
Age_Group is null. -/
def rawTeen : RawRow :=
  { customerId := "C003", productId := "P003", city := "Mumbai"
    productCategory := "Snacks", gender := "F", age := 17
    price := 20, quantity := 3, deliveryTimeMins := 9, loyaltyPoints := 1 }

/-- Two-row canonical table of the spec's worked example. -/
def exampleTable : List Row := [derive rawMumbai, derive rawDelhi]

/-- Canonical table containing a row with a null Age_Group. -/
def tableWithTeen : List Row := [derive rawMumbai, derive rawTeen]

/-- Filter state of the worked example restricting City to Mumbai, all
other attributes left at their default all-observed-values lists. -/
def mumbaiSelections : FilterSelections :=
  { defaultSelections exampleTable with cities := ["Mumbai"] }

/-- Filter state of the worked example allowing both cities, all other
attributes left at their default all-observed-values lists. -/
def bothCitySelections : FilterSelections :=
  { defaultSelections exampleTable with cities := ["Mumbai", "Delhi"] }

/-- C1 counterexample: age 18 lies in the claimed interval [18,65] yet
receives no age group, because pd.cut with right=True leaves the lowest
edge out of the first bin (18,25]. -/
theorem ageGroup_claim_fails_at_18 :
    (18 ≤ (18 : Int) ∧ (18 : Int) ≤ 65) ∧ ageGroup 18 = none := by
  decide

/-- C1 (amended): the derived age group is determined by the fixed bin
edges {18,25,35,45,55,65} with both edges of each bin left-exclusive and
right-inclusive; an age receives a group exactly when it lies in (18,65],
so age 18 and every age outside [18,65] map to no group, while ages on an
interior boundary belong to the lower bin (25 to "18-25", 26 to "26-35",
65 to "56-65"). -/
theorem ageGroup_bins_characterized :
    ∀ a : Int,
      ((ageGroup a).isSome = decide (18 < a ∧ a ≤ 65)) ∧
      ageGroup 25 = some "18-25" ∧
      ageGroup 26 = some "26-35" ∧
      ageGroup 65 = some "56-65" ∧
      ageGroup 66 = none ∧
      ageGroup 18 = none := by
  intro a
  refine ⟨?_, by decide, by decide, by decide, by decide, by decide⟩
  simp only [ageGroup]
  split_ifs with h1 h2 h3 h4 h5 <;>
    simp only [Option.isSome_some, Option.isSome_none] <;>
    · rw [eq_comm]
      simp only [decide_eq_true_eq, decide_eq_false_iff_not]
      omega

/-- C5: SLA_Breach is the strict comparison of delivery time with the
10-minute constant (exactly 10.0 is not a breach, 10.01 is), and
SLA_Status is its string mirror. -/
theorem slaBreach_strict_ten_minutes :
    ∀ r : RawRow,
      ((derive r).slaBreach = decide (r.deliveryTimeMins > 10)) ∧
      ((derive r).slaStatus =
        if (derive r).slaBreach then "Breached (>10m)" else "On Time (<=10m)") ∧
      computeSlaBreach 10 = false ∧
      computeSlaBreach (1001 / 100) = true := by
  intro r
  refine ⟨rfl, rfl, by norm_num [computeSlaBreach, slaThreshold],
    by norm_num [computeSlaBreach, slaThreshold]⟩

/-- C7: the derived Total_Spend equals price times quantity, and the
derivation is a pure function of the raw record: recomputing from an
equal raw row yields an identical derived row. -/
theorem totalSpend_eq_price_mul_quantity :
    ∀ r : RawRow,
      ((derive r).totalSpend = r.price * (r.quantity : ℚ)) ∧
      (∀ s : RawRow, s = r → derive s = derive r) := by
  intro r
  exact ⟨rfl, fun s hs => by rw [hs]⟩

/-- C7 witness: the derivation equations evaluated on the Mumbai example row. -/
theorem totalSpend_eq_price_mul_quantity_witness :
    (derive rawMumbai).totalSpend = 200 ∧ derive rawMumbai = derive rawMumbai := by
  constructor
  · rw [(totalSpend_eq_price_mul_quantity rawMumbai).1]
    norm_num [rawMumbai]
  · exact (totalSpend_eq_price_mul_quantity rawMumbai).2 rawMumbai rfl

/-- Helper: an empty allowed set on any of the four attributes makes the
corresponding membership test false on every row, so the filter keeps nothing. -/
theorem applyFilters_eq_nil_of_empty_selection (s : FilterSelections) (t : List Row)
    (h : s.cities = [] ∨ s.categories = [] ∨ s.ageGroups = [] ∨ s.genders = []) :
    applyFilters s t = [] := by
  refine List.filter_eq_nil_iff.mpr fun r _ => ?_
  rcases h with h0 | h0 | h0 | h0 <;>
    cases hag : r.ageGroup <;> simp [rowMatches, h0, hag]

/-- C3: the filtered subset holds exactly the rows of the table whose four
attribute values each belong to the corresponding allowed set (conjunction
of the four memberships; a null age group belongs to none), and an empty
allowed set on any attribute empties the subset. -/
theorem filter_conjunctive_membership :
    ∀ (s : FilterSelections) (t : List Row),
      (∀ r : Row, r ∈ applyFilters s t ↔
        r ∈ t ∧ r.raw.city ∈ s.cities ∧ r.raw.productCategory ∈ s.categories ∧
          (∃ g, r.ageGroup = some g ∧ g ∈ s.ageGroups) ∧ r.raw.gender ∈ s.genders) ∧
      (s.cities = [] → applyFilters s t = []) ∧
      (s.categories = [] → applyFilters s t = []) ∧
      (s.ageGroups = [] → applyFilters s t = []) ∧
      (s.genders = [] → applyFilters s t = []) := by
  intro s t
  refine ⟨fun r => ?_,
    fun h => applyFilters_eq_nil_of_empty_selection s t (Or.inl h),
    fun h => applyFilters_eq_nil_of_empty_selection s t (Or.inr (Or.inl h)),
    fun h => applyFilters_eq_nil_of_empty_selection s t (Or.inr (Or.inr (Or.inl h))),
    fun h => applyFilters_eq_nil_of_empty_selection s t (Or.inr (Or.inr (Or.inr h)))⟩
  simp only [applyFilters, List.mem_filter, rowMatches, Bool.and_eq_true, decide_eq_true_eq]
  cases hag : r.ageGroup with
  | none => simp [hag]
  | some g => simp [hag, and_assoc]

/-- C3 witness: on the two-row example table, the Mumbai row passes the
all-values filter, and an empty city set empties the subset. -/
theorem filter_conjunctive_membership_witness :
    derive rawMumbai ∈ applyFilters (defaultSelections exampleTable) exampleTable ∧
    applyFilters
      { cities := [], categories := ["Snacks"], ageGroups := ["26-35"], genders := ["F"] }
      exampleTable = [] := by
  constructor
  · exact ((filter_conjunctive_membership (defaultSelections exampleTable) exampleTable).1
      (derive rawMumbai)).mpr
      ⟨by simp [exampleTable], by decide, by decide, ⟨"26-35", by decide, by decide⟩, by decide⟩
  · exact (filter_conjunctive_membership _ exampleTable).2.1 rfl

/-- C2 counterexample: on a table containing a row whose age (17) has a
null age group, the default all-observed-values filter state does not
return the canonical table: the null-age-group row is dropped, because the
option lists are built with dropna and a null is never a member of them. -/
theorem default_filter_drops_null_age_row :
    applyFilters (defaultSelections tableWithTeen) tableWithTeen ≠ tableWithTeen ∧
    derive rawTeen ∈ tableWithTeen ∧ (derive rawTeen).ageGroup = none := by
  refine ⟨fun h => ?_, by simp [tableWithTeen], by decide⟩
  have h1 : (applyFilters (defaultSelections tableWithTeen) tableWithTeen).length = 1 := by
    decide
  rw [h] at h1
  simp [tableWithTeen] at h1

/-- C2 (amended): filtering with every attribute's allowed set equal to its
default "all observed values" list yields exactly the rows of the canonical
table whose age group is non-null; rows with a null age group are excluded. -/
theorem default_filter_keeps_nonnull_age_rows :
    ∀ t : List Row,
      applyFilters (defaultSelections t) t = t.filter (fun r => r.ageGroup.isSome) := by
  intro t
  unfold applyFilters
  refine List.filter_congr fun r hr => ?_
  have hc : r.raw.city ∈ (t.map fun r => r.raw.city).dedup :=
    List.mem_dedup.mpr (List.mem_map_of_mem _ hr)
  have hcat : r.raw.productCategory ∈ (t.map fun r => r.raw.productCategory).dedup :=
    List.mem_dedup.mpr (List.mem_map_of_mem _ hr)
  have hg : r.raw.gender ∈ (t.map fun r => r.raw.gender).dedup :=
    List.mem_dedup.mpr (List.mem_map_of_mem _ hr)
  simp only [rowMatches, defaultSelections, uniqueValues, uniqueOptValues,
    decide_eq_true hc, decide_eq_true hcat, decide_eq_true hg]
  cases hag : r.ageGroup with
  | none => simp
  | some g =>
      have hmem : g ∈ (t.filterMap fun r => r.ageGroup).dedup :=
        List.mem_dedup.mpr (List.mem_filterMap.mpr ⟨r, hr, hag⟩)
      simp [hmem]

/-- C9: filtering is idempotent — applying the same allowed sets to an
already-filtered subset returns that subset unchanged. -/
theorem filter_idempotent :
    ∀ (s : FilterSelections) (t : List Row),
      applyFilters s (applyFilters s t) = applyFilters s t := by
  intro s t
  simp [applyFilters, List.filter_filter]

/-- C8: an empty filtered subset produces no summary statistics at all
(none, a distinct no-data state rather than zeros); in particular an empty
allowed set on any attribute leads to the no-data state, and no Summary
value whatsoever is reported for the empty subset. -/
theorem empty_subset_reports_no_data :
    ∀ (s : FilterSelections) (t : List Row),
      (applyFilters s t = [] → summarize (applyFilters s t) = none) ∧
      ((s.cities = [] ∨ s.categories = [] ∨ s.ageGroups = [] ∨ s.genders = []) →
        summarize (applyFilters s t) = none) ∧
      (∀ stats : Summary, summarize [] ≠ some stats) := by
  intro s t
  refine ⟨fun h => by rw [h]; rfl,
    fun h => by rw [applyFilters_eq_nil_of_empty_selection s t h]; rfl,
    fun stats h => by simp [summarize] at h⟩

/-- C8 witness: the empty city set on the example table yields the no-data
state, not a zero-valued summary. -/
theorem empty_subset_reports_no_data_witness :
    summarize (applyFilters
      { cities := [], categories := [], ageGroups := [], genders := [] }
      exampleTable) = none :=
  (empty_subset_reports_no_data _ exampleTable).2.1 (Or.inl rfl)

/-- C10: a row with a null age group is excluded from the filtered subset
under the default filter state, since every default allowed set is built
from non-null observed values only. -/
theorem null_age_row_excluded_by_default :
    ∀ (t : List Row) (r : Row), r ∈ t → r.ageGroup = none →
      r ∉ applyFilters (defaultSelections t) t := by
  intro t r _ hag hmem
  have hm := (List.mem_filter.mp hmem).2
  simp [rowMatches, hag] at hm

/-- C10 witness: the age-17 row of the sample table is excluded under the
default filter state. -/
theorem null_age_row_excluded_by_default_witness :
    derive rawTeen ∉ applyFilters (defaultSelections tableWithTeen) tableWithTeen :=
  null_age_row_excluded_by_default tableWithTeen (derive rawTeen)
    (by simp [tableWithTeen]) (by decide)

/-- C6: on a non-empty subset the KPI row reports total revenue as the sum
of Total_Spend, the SLA breach rate as the mean of SLA_Breach times 100,
the average delivery time, and the average basket size (mean quantity); on
the spec's two-row example, filtering to City Mumbai gives revenue 200,
breach rate 100, average delivery 12, and filtering to both cities gives
revenue 250, breach rate 50, average delivery 10. -/
theorem summary_formulas_and_example :
    (∀ t : List Row, t ≠ [] →
      summarize t = some
        { totalRevenue := (t.map (fun r => r.totalSpend)).sum
          breachRate := ((t.map (fun r => boolToRat r.slaBreach)).sum / (t.length : ℚ)) * 100
          avgDeliveryTime := (t.map (fun r => r.raw.deliveryTimeMins)).sum / (t.length : ℚ)
          avgBasketSize := (t.map (fun r => (r.raw.quantity : ℚ))).sum / (t.length : ℚ) }) ∧
    summarize (applyFilters mumbaiSelections exampleTable) =
      some { totalRevenue := 200, breachRate := 100, avgDeliveryTime := 12, avgBasketSize := 2 } ∧
    summarize (applyFilters bothCitySelections exampleTable) =
      some { totalRevenue := 250, breachRate := 50, avgDeliveryTime := 10, avgBasketSize := 3 / 2 } := by
  have hform : ∀ t : List Row, t ≠ [] →
      summarize t = some
        { totalRevenue := (t.map (fun r => r.totalSpend)).sum
          breachRate := ((t.map (fun r => boolToRat r.slaBreach)).sum / (t.length : ℚ)) * 100
          avgDeliveryTime := (t.map (fun r => r.raw.deliveryTimeMins)).sum / (t.length : ℚ)
          avgBasketSize := (t.map (fun r => (r.raw.quantity : ℚ))).sum / (t.length : ℚ) } := by
    intro t ht
    cases t with
    | nil => exact absurd rfl ht
    | cons a l => simp [summarize]
  have hm1 : rowMatches mumbaiSelections (derive rawMumbai) = true := by decide
  have hm2 : rowMatches mumbaiSelections (derive rawDelhi) = false := by decide
  have hb1 : rowMatches bothCitySelections (derive rawMumbai) = true := by decide
  have hb2 : rowMatches bothCitySelections (derive rawDelhi) = true := by decide
  have hf1 : applyFilters mumbaiSelections exampleTable = [derive rawMumbai] := by
    simp [applyFilters, exampleTable, List.filter_cons, hm1, hm2]
  have hf2 : applyFilters bothCitySelections exampleTable =
      [derive rawMumbai, derive rawDelhi] := by
    simp [applyFilters, exampleTable, List.filter_cons, hb1, hb2]
  have hbr1 : computeSlaBreach (12 : ℚ) = true := by
    norm_num [computeSlaBreach, slaThreshold]
  have hbr2 : computeSlaBreach (8 : ℚ) = false := by
    norm_num [computeSlaBreach, slaThreshold]
  refine ⟨hform, ?_, ?_⟩
  · rw [hf1, hform [derive rawMumbai] (by simp)]
    simp only [derive, rawMumbai, hbr1, boolToRat, List.map_cons, List.map_nil,
      List.sum_cons, List.sum_nil, List.length_cons, List.length_nil]
    norm_num
  · rw [hf2, hform [derive rawMumbai, derive rawDelhi] (by simp)]
    simp only [derive, rawMumbai, rawDelhi, hbr1, hbr2, boolToRat, List.map_cons,
      List.map_nil, List.sum_cons, List.sum_nil, List.length_cons, List.length_nil]
    norm_num

/-- C6 witness: the KPI formulas evaluated on the one-row Delhi table. -/
theorem summary_formulas_and_example_witness :
    summarize [derive rawDelhi] =
      some { totalRevenue := 50, breachRate := 0, avgDeliveryTime := 8, avgBasketSize := 1 } := by
  rw [summary_formulas_and_example.1 [derive rawDelhi] (by simp)]
  have hbr : computeSlaBreach (8 : ℚ) = false := by
    norm_num [computeSlaBreach, slaThreshold]
  simp only [derive, rawDelhi, hbr, boolToRat, List.map_cons, List.map_nil,
    List.sum_cons, List.sum_nil, List.length_cons, List.length_nil]
  norm_num

/-- C4 counterexample: a sum aggregation over a plain string value column
is not an error at all — pandas reduces object-dtype strings with the +
operator, so the General Analysis call returns their concatenation and the
view silently plots it. -/
theorem sum_on_string_column_is_not_an_error :
    aggSeries AggFunc.sum (ValueColumn.objectStr ["Mumbai", "Delhi"]) =
      Except.ok (Sum.inr "MumbaiDelhi") := by
  rfl

/-- C4 (amended): a mean aggregation on any non-numeric value column, and a
sum aggregation on the categorical age-group column, are errors; every such
error is caught by the view's try/except and surfaced as a localized
message, and the KPI view computed from the same filtered subset is
unaffected by the aggregation request; but a sum aggregation on a plain
string column is not an error — it returns the string concatenation. -/
theorem aggregation_errors_are_localized :
    ∀ (svals : List String) (t : List Row) (f : AggFunc) (c : ValueColumn),
      (∃ e, aggSeries AggFunc.mean (ValueColumn.objectStr svals) = Except.error e) ∧
      (∃ e, aggSeries AggFunc.mean (ValueColumn.categorical svals) = Except.error e) ∧
      (∃ e, aggSeries AggFunc.sum (ValueColumn.categorical svals) = Except.error e) ∧
      (∀ e, aggSeries f c = Except.error e →
        renderGeneralAnalysis f c = "Could not plot chart. Error: " ++ e) ∧
      (dashboardViews t f c).1 = summarize t := by
  intro svals t f c
  refine ⟨⟨_, rfl⟩, ⟨_, rfl⟩, ⟨_, rfl⟩, fun e he => ?_, rfl⟩
  simp [renderGeneralAnalysis, he]

/-- C4 witness: a mean over a string column yields the localized error
message in the exploration view, while the KPI summary of the same
filtered subset is computed exactly as without the request. -/
theorem aggregation_errors_are_localized_witness :
    renderGeneralAnalysis AggFunc.mean (ValueColumn.objectStr ["Mumbai"]) =
      "Could not plot chart. Error: Could not convert string to numeric" ∧
    (dashboardViews exampleTable AggFunc.mean (ValueColumn.objectStr ["Mumbai"])).1 =
      summarize exampleTable := by
  exact ⟨(aggregation_errors_are_localized ["Mumbai"] exampleTable AggFunc.mean
      (ValueColumn.objectStr ["Mumbai"])).2.2.2.1 _ rfl,
    (aggregation_errors_are_localized ["Mumbai"] exampleTable AggFunc.mean
      (ValueColumn.objectStr ["Mumbai"])).2.2.2.2⟩

end Zepto
